import Mathlib

/-!
Shallow embedding of the CodeNation_Connect repository
(src/main.py, class StudentMarksSystem, and src/grading.py) in Lean 4.

Modelling conventions:
  - A Python dict value stored under a student is either a display string
    (the Name and Class fields) or a list of integer marks (a subject);
    this heterogeneous shape is the type Val below.
  - Python dicts preserve insertion order and update keys in place, so a
    dict is an association list with in-place update (recSet, storeSetField).
    The outer students mapping is a defaultdict of dicts: accessing an
    unknown student id creates a fresh empty record at the end.
  - Machine strings are Lean String; the comma-separated mark fields are
    manipulated through their character lists.  The csv quoting layer
    (csv.DictWriter and csv.DictReader) is a faithful inverse on string
    fields and is modelled at the row level: a file is a header list plus
    a list of rows with named string fields.
  - print based output is modelled as a list of output lines paired with a
    Bool that records whether the Python code raised an uncaught exception
    (ZeroDivisionError, KeyError, AttributeError, TypeError) at that point,
    halting the program; lines printed before the exception are kept.
  - Python int arithmetic is Int, true division is Rat.
-/

/-- A value stored in a student record: a display string or a mark list. -/
inductive Val where
  | str (s : String)
  | ints (l : List Int)
deriving DecidableEq

/-- A student record: a Python dict from field name to value,
as an insertion-ordered association list. -/
abbrev Rec := List (String × Val)

/-- The students store: a Python dict from student id to record. -/
abbrev Store := List (String × Rec)

/-- In-place dict update: replace the value at an existing key, keeping its
position, or append a fresh key at the end (Python dict assignment). -/
def recSet : Rec → String → Val → Rec
  | [], k, v => [(k, v)]
  | (k0, v0) :: r, k, v => if k0 = k then (k, v) :: r else (k0, v0) :: recSet r k v

/-- The statement students[sid][k] = v on a defaultdict(dict): an unknown
student id is created with a fresh record at the end of the store. -/
def storeSetField : Store → String → String → Val → Store
  | [], sid, k, v => [(sid, recSet [] k v)]
  | (s0, r0) :: t, sid, k, v =>
      if s0 = sid then (s0, recSet r0 k v) :: t else (s0, r0) :: storeSetField t sid k v

/-- The keys of the store: the student ids in insertion order. -/
def storeIds (st : Store) : List String := st.map Prod.fst

/-! ### Integer tokens: Python int(s) and str(i) on mark tokens -/

/-- The decimal digit characters, as Python str writes them. -/
def digitChar : Nat → Char
  | 0 => '0' | 1 => '1' | 2 => '2' | 3 => '3' | 4 => '4'
  | 5 => '5' | 6 => '6' | 7 => '7' | 8 => '8' | _ => '9'

/-- Numeric value of a decimal digit character, none for non-digits. -/
def digitVal (c : Char) : Option Nat :=
  if 48 ≤ c.toNat ∧ c.toNat ≤ 57 then some (c.toNat - 48) else none

/-- Decimal digits of a natural number, most significant first; the fuel
argument bounds the recursion and any fuel above the number is enough. -/
def natDigitsAux : Nat → Nat → List Char
  | 0, _ => []
  | fuel + 1, n =>
      if n < 10 then [digitChar n]
      else natDigitsAux fuel (n / 10) ++ [digitChar (n % 10)]

/-- Decimal digits of a natural number, most significant first. -/
def natDigits (n : Nat) : List Char := natDigitsAux (n + 1) n

/-- Python str on an int: an optional leading minus sign then digits. -/
def pyIntStr (i : Int) : List Char :=
  if i < 0 then '-' :: natDigits i.natAbs else natDigits i.toNat

/-- Accumulating decimal parser: consumes digits, none on a non-digit. -/
def parseDigitsAux : List Char → Nat → Option Nat
  | [], acc => some acc
  | c :: cs, acc =>
      match digitVal c with
      | some d => parseDigitsAux cs (10 * acc + d)
      | none => none

/-- Python int(s) on a mark token: optional sign then a nonempty digit run;
the empty token and any token with a non-digit fail (ValueError). -/
def pyParseInt (cs : List Char) : Option Int :=
  match cs with
  | [] => none
  | c :: rest =>
      if c = '-' then
        if rest = [] then none
        else (parseDigitsAux rest 0).map (fun n => -(n : Int))
      else if c = '+' then
        if rest = [] then none
        else (parseDigitsAux rest 0).map (fun n => (n : Int))
      else (parseDigitsAux cs 0).map (fun n => (n : Int))

/-! ### Comma joined mark lists: s.split on a comma, and a comma join -/

/-- Python s.split on the comma character; the empty string gives one empty
part, exactly as in Python. -/
def splitComma : List Char → List (List Char)
  | [] => [[]]
  | c :: cs =>
      if c = ',' then [] :: splitComma cs
      else
        match splitComma cs with
        | [] => [[c]]
        | p :: ps => (c :: p) :: ps

/-- Python comma join of string parts; the empty list gives the empty string. -/
def joinComma : List (List Char) → List Char
  | [] => []
  | [x] => x
  | x :: xs => x ++ ',' :: joinComma xs

/-- Sequence a list of optional ints: none as soon as one element is none,
as the Python list comprehension over int(mark) raises on the first bad token. -/
def optionInts : List (Option Int) → Option (List Int)
  | [] => some []
  | o :: os =>
      match o, optionInts os with
      | some v, some vs => some (v :: vs)
      | _, _ => none

/-- The marks field parser: int(mark) for mark in field.split on comma.
This is the body of the list comprehensions at src/main.py lines 119-121. -/
def parseMarksField (s : String) : Option (List Int) :=
  optionInts ((splitComma s.data).map pyParseInt)

/-- The marks field writer of the export: comma join of str(mark), the
expression at src/main.py lines 202-204 for an int list value. -/
def serializeMarks (l : List Int) : String :=
  ⟨joinComma (l.map pyIntStr)⟩

/-! ### Input files at row level and the three loaders -/

/-- A data row of the identity source (students.csv). -/
structure IdentityRow where
  studentId : String
  name : String
  className : String
deriving DecidableEq

/-- The identity source: header columns plus data rows. -/
structure IdentityFile where
  header : List String
  rows : List IdentityRow
deriving DecidableEq

/-- A data row of the marks source (marks.csv); the three mark fields are
raw comma joined strings. -/
structure MarksRow where
  studentId : String
  math : String
  science : String
  english : String
deriving DecidableEq

/-- The marks source: header columns plus data rows. -/
structure MarksFile where
  header : List String
  rows : List MarksRow
deriving DecidableEq

/-- A data row of the optional weights source (weights.csv). -/
structure WeightsRow where
  subject : String
  weight : String
deriving DecidableEq

/-- Load errors; in the Python source each is a printed diagnostic followed
by exit, or an uncaught exception, and in both cases the process halts. -/
inductive LoadErr where
  | schemaErr (column : String) (filename : String)
  | markFormatErr (studentId : String)
  | valueErr
  | attrErr
deriving DecidableEq

/-- First required column missing from the header, if any
(the loop at src/main.py lines 96-99 and 111-114). -/
def missingColumn (required : List String) (header : List String) : Option String :=
  required.find? (fun c => !(header.contains c))

/-- The row loop of load_student_data (src/main.py lines 101-104):
set Name then Class on the defaultdict entry of the row's student id. -/
def loadStudentRows : Store → List IdentityRow → Store
  | st, [] => st
  | st, row :: rest =>
      loadStudentRows
        (storeSetField (storeSetField st row.studentId ("Name") (Val.str row.name))
          row.studentId ("Class") (Val.str row.className)) rest

/-- load_student_data (src/main.py lines 91-104): schema check, then the row
loop; a missing column prints an error and exits, leaving the store as is. -/
def load_student_data (st : Store) (f : IdentityFile) : Option LoadErr × Store :=
  match missingColumn ["StudentID", "Name", "Class"] f.header with
  | some c => (some (LoadErr.schemaErr c ("students.csv")), st)
  | none => (none, loadStudentRows st f.rows)

/-- The try block of load_marks_data for one row (src/main.py lines
118-124): parse and assign Math, Science, English in order; the first bad
token raises ValueError, which is caught, printed, and exits; fields
assigned before the bad token stay assigned, and the right-hand side of
each assignment is evaluated before the defaultdict entry is created. -/
def loadMarksRow (st : Store) (row : MarksRow) : Option LoadErr × Store :=
  match parseMarksField row.math with
  | none => (some (LoadErr.markFormatErr row.studentId), st)
  | some mm =>
    let st1 := storeSetField st row.studentId ("Math") (Val.ints mm)
    match parseMarksField row.science with
    | none => (some (LoadErr.markFormatErr row.studentId), st1)
    | some sm =>
      let st2 := storeSetField st1 row.studentId ("Science") (Val.ints sm)
      match parseMarksField row.english with
      | none => (some (LoadErr.markFormatErr row.studentId), st2)
      | some em => (none, storeSetField st2 row.studentId ("English") (Val.ints em))

/-- The row loop of load_marks_data (src/main.py lines 116-124), halting at
the first error. -/
def loadMarksRows : Store → List MarksRow → Option LoadErr × Store
  | st, [] => (none, st)
  | st, row :: rest =>
      let b := loadMarksRow st row
      match b.1 with
      | some e => (some e, b.2)
      | none => loadMarksRows b.2 rest

/-- load_marks_data (src/main.py lines 106-124): schema check then row loop. -/
def load_marks_data (st : Store) (f : MarksFile) : Option LoadErr × Store :=
  match missingColumn ["StudentID", "Math", "Science", "English"] f.header with
  | some c => (some (LoadErr.schemaErr c ("marks.csv")), st)
  | none => loadMarksRows st f.rows

/-! ### Weights loading -/

/-- Python float(s) on a weight token: optional sign, an integer digit run
with an optional dot and fractional digit run. -/
def pyParseFloat (s : String) : Option Rat :=
  let core : List Char → Option Rat := fun cs =>
    match cs.splitOn '.' with
    | [w] => (parseDigitsAux w 0).bind (fun n => if w = [] then none else some (n : Rat))
    | [w, f] =>
        if w = [] ∧ f = [] then none
        else
          (parseDigitsAux w 0).bind (fun n =>
            (parseDigitsAux f 0).map (fun m =>
              (n : Rat) + (m : Rat) / ((10 : Rat) ^ f.length)))
    | _ => none
  match s.data with
  | [] => none
  | c :: rest =>
      if c = '-' then (core rest).map (fun q => -q)
      else if c = '+' then core rest
      else core s.data

/-- The row loop of load_subject_weights (src/main.py lines 131-134).
The subject_weights attribute is never initialized anywhere in the class,
so it is modelled as an optional table that starts out absent; reading it
in the assignment self.subject_weights[subject] = weight raises
AttributeError when it is absent.  A bad weight token raises an uncaught
ValueError from float. -/
def loadWeightsRows (tbl : Option (List (String × Rat))) :
    List WeightsRow → Option LoadErr × Option (List (String × Rat))
  | [] => (none, tbl)
  | row :: rest =>
      match pyParseFloat row.weight with
      | none => (some LoadErr.valueErr, tbl)
      | some w =>
        match tbl with
        | none => (some LoadErr.attrErr, none)
        | some t =>
            loadWeightsRows (some (if t.lookup row.subject = none
              then t ++ [(row.subject, w)]
              else t.map (fun kv => if kv.1 = row.subject then (kv.1, w) else kv))) rest

/-- load_subject_weights (src/main.py lines 126-136): a missing file raises
FileNotFoundError which is caught and only prints a warning; a present file
runs the row loop. -/
def load_subject_weights (tbl : Option (List (String × Rat)))
    (file : Option (List WeightsRow)) : Option LoadErr × Option (List (String × Rat)) :=
  match file with
  | none => (none, tbl)
  | some rows => loadWeightsRows tbl rows

/-- load_data as run from the constructor (src/main.py lines 71-84): the
store starts empty and the subject_weights attribute absent; students then
marks then weights are loaded, halting at the first error. -/
def load_data (idf : IdentityFile) (mkf : MarksFile) (wtf : Option (List WeightsRow)) :
    Option LoadErr × Store × Option (List (String × Rat)) :=
  let r1 := load_student_data [] idf
  match r1.1 with
  | some e => (some e, r1.2, none)
  | none =>
    let r2 := load_marks_data r1.2 mkf
    match r2.1 with
    | some e => (some e, r2.2, none)
    | none =>
      let r3 := load_subject_weights none wtf
      (r3.1, r2.2, r3.2)

/-! ### Aggregator -/

/-- The mark collection of calculate_average (src/main.py line 167): every
element of every list valued field, in field insertion order; elements of a
string field are one character strings, never ints, so string fields
contribute nothing to the isinstance int filter. -/
def flattenMarks (r : Rec) : List Int :=
  r.foldr (fun kv acc => match kv.2 with | Val.str _ => acc | Val.ints l => l ++ acc) []

/-- calculate_average (src/main.py lines 164-170): None for an unknown id
or an empty mark collection, else the arithmetic mean. -/
def calculate_average (st : Store) (sid : String) : Option Rat :=
  match st.lookup sid with
  | none => none
  | some r =>
    let marks := flattenMarks r
    if marks = [] then none
    else some ((marks.sum : Rat) / (marks.length : Rat))

/-- total marks of track_progress_over_time (src/main.py line 211): the sum
over all list valued fields of their sums. -/
def totalMarks (r : Rec) : Int := (flattenMarks r).sum

/-! ### generate_report output -/

/-- One printed line of generate_report. -/
inductive RLine where
  | rid (sid : String)
  | rname (v : Val)
  | rclass (v : Val)
  | rsubject (name : String) (v : Val)
  | raverage (a : Rat)
  | rinvalid (sid : String)
deriving DecidableEq

/-- The per student body of generate_report (src/main.py lines 174-185):
with an average, print id, Name, Class (KeyError halts if a field is
absent), the non Name and Class fields, and the average; with no average,
print the invalid data line.  The Bool is true when the student's block
raised. -/
def reportStudent (st : Store) (sid : String) (r : Rec) : List RLine × Bool :=
  match calculate_average st sid with
  | some avg =>
    (match r.lookup ("Name") with
     | none => ([RLine.rid sid], true)
     | some nv =>
       match r.lookup ("Class") with
       | none => ([RLine.rid sid, RLine.rname nv], true)
       | some cv =>
         ([RLine.rid sid, RLine.rname nv, RLine.rclass cv] ++
           (r.filter (fun kv => !(kv.1 == "Name" || kv.1 == "Class"))).map
             (fun kv => RLine.rsubject kv.1 kv.2) ++ [RLine.raverage avg], false))
  | none => ([RLine.rinvalid sid], false)

/-- The student loop of generate_report (src/main.py lines 172-185),
halting at the first uncaught exception. -/
def reportLoop (st : Store) : List (String × Rec) → List RLine × Bool
  | [] => ([], false)
  | (sid, r) :: rest =>
      let b := reportStudent st sid r
      if b.2 then (b.1, true)
      else
        let t := reportLoop st rest
        (b.1 ++ t.1, t.2)

/-- generate_report over the whole store, in store insertion order. -/
def generate_report (st : Store) : List RLine × Bool := reportLoop st st

/-! ### track_progress_over_time output -/

/-- One printed line of track_progress_over_time. -/
inductive PLine where
  | idLine (sid : String)
  | nameLine (v : Val)
  | totalLine (t : Int)
  | progressLine (p : Rat)
  | subjLine (name : String)
  | assignP (idx : Nat) (mark : Int) (pct : Rat)
  | assignN (idx : Nat) (mark : Int)
  | assignC (idx : Nat) (c : Char)
  | noDataLine (sid : String)
deriving DecidableEq

/-- The assignment loop of track_progress_over_time (src/main.py lines
223-231) on an int mark list: the first assignment has no progress; each
later one prints the percentage change from the previous mark, and a
previous mark of zero raises ZeroDivisionError (the Bool). -/
def progressLinesP : Option Int → Nat → List Int → List PLine × Bool
  | _, _, [] => ([], false)
  | prev, idx, m :: ms =>
      match prev with
      | none =>
        let t := progressLinesP (some m) (idx + 1) ms
        (PLine.assignN idx m :: t.1, t.2)
      | some p =>
        if p = 0 then ([], true)
        else
          let t := progressLinesP (some m) (idx + 1) ms
          (PLine.assignP idx m (((m : Rat) - (p : Rat)) / (p : Rat) * 100) :: t.1, t.2)

/-- The assignment loop on a string valued field: iterating a Python string
yields one character strings; the first is printed as an assignment, and a
second raises TypeError on subtracting strings. -/
def charLinesP : List Char → List PLine × Bool
  | [] => ([], false)
  | [c] => ([PLine.assignC 1 c], false)
  | c :: _ :: _ => ([PLine.assignC 1 c], true)

/-- The subject loop of track_progress_over_time (src/main.py lines
220-231) over the non Name and Class fields. -/
def subjectLoop : List (String × Val) → List PLine × Bool
  | [] => ([], false)
  | (k, v) :: rest =>
      let b := match v with
        | Val.ints l => progressLinesP none 1 l
        | Val.str s => charLinesP s.data
      if b.2 then (PLine.subjLine k :: b.1, true)
      else
        let t := subjectLoop rest
        (PLine.subjLine k :: (b.1 ++ t.1), t.2)

/-- The per student body of track_progress_over_time (src/main.py lines
210-234): with positive total marks print id, Name (KeyError halts when
absent), total, the progress percentage with denominator 100 times the
number of record fields, then the subject loop; otherwise print the no
valid marks data line. -/
def trackStudent (sid : String) (r : Rec) : List PLine × Bool :=
  let total := totalMarks r
  if 0 < total then
    match r.lookup ("Name") with
    | none => ([PLine.idLine sid], true)
    | some nv =>
      let prog : Rat := ((total : Rat) / (100 * (r.length : Rat))) * 100
      let b := subjectLoop (r.filter (fun kv => !(kv.1 == "Name" || kv.1 == "Class")))
      ([PLine.idLine sid, PLine.nameLine nv, PLine.totalLine total,
        PLine.progressLine prog] ++ b.1, b.2)
  else ([PLine.noDataLine sid], false)

/-- The student loop of track_progress_over_time (src/main.py lines
208-234), halting at the first uncaught exception. -/
def trackLoop : List (String × Rec) → List PLine × Bool
  | [] => ([], false)
  | (sid, r) :: rest =>
      let b := trackStudent sid r
      if b.2 then (b.1, true)
      else
        let t := trackLoop rest
        (b.1 ++ t.1, t.2)

/-- track_progress_over_time over the whole store. -/
def track_progress_over_time (st : Store) : List PLine × Bool := trackLoop st

/-! ### Export and the round trip -/

/-- A data row of the exported file all_students.csv. -/
structure ExportRow where
  studentId : String
  name : String
  className : String
  math : String
  science : String
  english : String
deriving DecidableEq

/-- The exported file: header plus rows. -/
structure ExportFile where
  header : List String
  rows : List ExportRow
deriving DecidableEq

/-- Python str of a list of ints, bracketed and comma space joined, as
csv.DictWriter would stringify a list valued Name or Class field. -/
def pyReprIntList (l : List Int) : String :=
  ⟨'[' :: List.intercalate [',', ' '] (l.map pyIntStr) ++ [']']⟩

/-- The string csv.DictWriter writes for a Name or Class value. -/
def pyValStr : Val → String
  | Val.str s => s
  | Val.ints l => pyReprIntList l

/-- The comma join of str(mark) over a mark field value (src/main.py lines
202-204); joining over a string iterates its characters. -/
def pyJoinMarks : Val → String
  | Val.ints l => ⟨joinComma (l.map pyIntStr)⟩
  | Val.str s => ⟨joinComma (s.data.map (fun c => [c]))⟩

/-- The per student row of export_students_to_csv (src/main.py lines
200-205); a field absent from the record raises KeyError, halting the
export. -/
def exportStudent (sid : String) (r : Rec) : Option ExportRow :=
  match r.lookup ("Name"), r.lookup ("Class"), r.lookup ("Math"),
      r.lookup ("Science"), r.lookup ("English") with
  | some nv, some cv, some mv, some sv, some ev =>
      some ⟨sid, pyValStr nv, pyValStr cv, pyJoinMarks mv, pyJoinMarks sv, pyJoinMarks ev⟩
  | _, _, _, _, _ => none

/-- export_students_to_csv (src/main.py lines 194-206): the header row then
one row per student in store order; none when a student raises KeyError. -/
def export_students_to_csv (st : Store) : Option ExportFile :=
  (st.mapM (fun kv => exportStudent kv.1 kv.2)).map
    (fun rows => ⟨["StudentID", "Name", "Class", "Math", "Science", "English"], rows⟩)

/-- Reading the exported file back with csv.DictReader as the identity
source: the identity loader projects the StudentID, Name and Class fields. -/
def asIdentityFile (f : ExportFile) : IdentityFile :=
  ⟨f.header, f.rows.map (fun r => ⟨r.studentId, r.name, r.className⟩)⟩

/-- Reading the exported file back with csv.DictReader as the marks source:
the marks loader projects the StudentID and subject fields. -/
def asMarksFile (f : ExportFile) : MarksFile :=
  ⟨f.header, f.rows.map (fun r => ⟨r.studentId, r.math, r.science, r.english⟩)⟩

/-- Re-parsing an exported file from an empty store: identity load then
marks load, as in load_data. -/
def reload (f : ExportFile) : Option LoadErr × Store :=
  let r1 := load_student_data [] (asIdentityFile f)
  match r1.1 with
  | some e => (some e, r1.2)
  | none => load_marks_data r1.2 (asMarksFile f)

/-! ### Grading (src/grading.py) -/

/-- calculate_grade (src/grading.py lines 1-11); Python compares the score
as an exact chain of inequalities, modelled on the rationals. -/
def calculate_grade (score : Rat) : String :=
  if 90 ≤ score then ("A")
  else if 80 ≤ score ∧ score < 90 then ("B")
  else if 70 ≤ score ∧ score < 80 then ("C")
  else if 60 ≤ score ∧ score < 70 then ("D")
  else ("F")

/-! ### Observers used to state the claims -/

/-- The averages printed by generate_report, in print order. -/
def reportAverages (st : Store) : List Rat :=
  (generate_report st).1.filterMap
    (fun l => match l with | RLine.raverage a => some a | _ => none)

/-- The student id announced by each printed report block, in print order:
one id per student, from its Student ID line or its invalid data line. -/
def rlineIds (ls : List RLine) : List String :=
  ls.filterMap
    (fun l => match l with
      | RLine.rid s => some s
      | RLine.rinvalid s => some s
      | _ => none)

/-- The ids of the report blocks of generate_report, in print order. -/
def reportStudentIds (st : Store) : List String := rlineIds (generate_report st).1

/-- The progress percentages printed by track_progress_over_time for one
student block. -/
def progressPcts (ls : List PLine) : List Rat :=
  ls.filterMap (fun l => match l with | PLine.progressLine p => some p | _ => none)

/-- The number of subject fields of a record: the fields other than Name
and Class, which is what the specification calls the number of subjects. -/
def subjectCount (r : Rec) : Nat :=
  (r.filter (fun kv => !(kv.1 == "Name" || kv.1 == "Class"))).length

/-- Value of a field, defaulting to an empty string; total stand-in for a
field access that the surrounding hypotheses guarantee to be present. -/
def fieldOr (r : Rec) (k : String) : Val := (r.lookup k).getD (Val.str (""))

/-- A record is fully populated when it has string Name and Class fields
and nonempty int list Math, Science and English fields. -/
def goodRec (r : Rec) : Bool :=
  (match r.lookup ("Name") with | some (Val.str _) => true | _ => false) &&
  (match r.lookup ("Class") with | some (Val.str _) => true | _ => false) &&
  (match r.lookup ("Math") with | some (Val.ints l) => !l.isEmpty | _ => false) &&
  (match r.lookup ("Science") with | some (Val.ints l) => !l.isEmpty | _ => false) &&
  (match r.lookup ("English") with | some (Val.ints l) => !l.isEmpty | _ => false)

/-- The record shape rebuilt by loading an exported row: identity fields
first, then the three subjects, with the values of the original record. -/
def canonRec (r : Rec) : Rec :=
  [("Name", fieldOr r ("Name")), ("Class", fieldOr r ("Class")),
   ("Math", fieldOr r ("Math")), ("Science", fieldOr r ("Science")),
   ("English", fieldOr r ("English"))]

/-- The five named fields of a record, as the claims compare students. -/
def fieldsOf (r : Rec) : Option Val × Option Val × Option Val × Option Val × Option Val :=
  (r.lookup ("Name"), r.lookup ("Class"), r.lookup ("Math"),
   r.lookup ("Science"), r.lookup ("English"))

/-- The row written by the export for one fully populated student. -/
def exportRowOf (p : String × Rec) : ExportRow :=
  ⟨p.1, pyValStr (fieldOr p.2 ("Name")), pyValStr (fieldOr p.2 ("Class")),
    pyJoinMarks (fieldOr p.2 ("Math")), pyJoinMarks (fieldOr p.2 ("Science")),
    pyJoinMarks (fieldOr p.2 ("English"))⟩

/-! ### Round trip lemmas for integer tokens -/

theorem digitVal_digitChar {n : Nat} (h : n < 10) : digitVal (digitChar n) = some n := by
  interval_cases n <;> decide

theorem isSome_digitVal_digitChar (n : Nat) : (digitVal (digitChar n)).isSome := by
  by_cases h : n < 10
  · rw [digitVal_digitChar h]; rfl
  · have : digitChar n = '9' := by
      unfold digitChar
      repeat' split
      all_goals first | rfl | omega
    rw [this]; decide

theorem mem_natDigitsAux_isSome_digitVal :
    ∀ fuel n c, c ∈ natDigitsAux fuel n → (digitVal c).isSome := by
  intro fuel
  induction fuel with
  | zero => intro n c hc; simp [natDigitsAux] at hc
  | succ fuel ih =>
    intro n c hc
    rw [natDigitsAux] at hc
    split at hc
    · simp at hc
      subst hc
      exact isSome_digitVal_digitChar n
    · rw [List.mem_append] at hc
      rcases hc with hc | hc
      · exact ih _ _ hc
      · simp at hc
        subst hc
        exact isSome_digitVal_digitChar _

theorem natDigitsAux_ne_nil {fuel n : Nat} (h : 0 < fuel) : natDigitsAux fuel n ≠ [] := by
  cases fuel with
  | zero => omega
  | succ fuel =>
    rw [natDigitsAux]
    split
    · simp
    · simp

theorem natDigits_ne_nil (n : Nat) : natDigits n ≠ [] :=
  natDigitsAux_ne_nil (by omega)

theorem mem_natDigits_isSome_digitVal {n : Nat} {c : Char} (hc : c ∈ natDigits n) :
    (digitVal c).isSome :=
  mem_natDigitsAux_isSome_digitVal _ _ _ hc

theorem parseDigitsAux_nil (acc : Nat) : parseDigitsAux [] acc = some acc := rfl

theorem parseDigitsAux_cons (c : Char) (cs : List Char) (acc : Nat) :
    parseDigitsAux (c :: cs) acc =
      match digitVal c with
      | some d => parseDigitsAux cs (10 * acc + d)
      | none => none := rfl

theorem parseDigitsAux_cons_digit {c : Char} {d : Nat} (h : digitVal c = some d)
    (cs : List Char) (acc : Nat) :
    parseDigitsAux (c :: cs) acc = parseDigitsAux cs (10 * acc + d) := by
  rw [parseDigitsAux_cons, h]

theorem parseDigitsAux_append (xs ys : List Char) (acc : Nat) :
    parseDigitsAux (xs ++ ys) acc =
      (parseDigitsAux xs acc).bind (fun a => parseDigitsAux ys a) := by
  induction xs generalizing acc with
  | nil => simp [parseDigitsAux]
  | cons c cs ih =>
    rw [List.cons_append, parseDigitsAux_cons, parseDigitsAux_cons]
    cases digitVal c with
    | none => rfl
    | some d => exact ih _

theorem parseDigitsAux_natDigitsAux :
    ∀ fuel n acc, n < fuel →
      parseDigitsAux (natDigitsAux fuel n) acc =
        some (acc * 10 ^ (natDigitsAux fuel n).length + n) := by
  intro fuel
  induction fuel with
  | zero => intro n acc h; omega
  | succ fuel ih =>
    intro n acc h
    rw [natDigitsAux]
    split
    · rename_i h10
      rw [parseDigitsAux_cons_digit (digitVal_digitChar h10), parseDigitsAux_nil]
      simp
      omega
    · rename_i h10
      push_neg at h10
      have hdiv : n / 10 < fuel := by omega
      rw [parseDigitsAux_append, ih _ acc hdiv, Option.some_bind]
      rw [parseDigitsAux_cons_digit (digitVal_digitChar (Nat.mod_lt n (by omega))),
        parseDigitsAux_nil]
      simp [List.length_append]
      rw [pow_succ]
      have : 10 * (n / 10) + n % 10 = n := Nat.div_add_mod n 10
      ring_nf
      omega

theorem parseDigitsAux_natDigits (n : Nat) :
    parseDigitsAux (natDigits n) 0 = some n := by
  rw [natDigits, parseDigitsAux_natDigitsAux (n + 1) n 0 (by omega)]
  simp

theorem isSome_digitVal_ne {c : Char} (h : (digitVal c).isSome) :
    c ≠ '-' ∧ c ≠ '+' ∧ c ≠ ',' := by
  refine ⟨?_, ?_, ?_⟩ <;> rintro rfl <;> simp [digitVal] at h

theorem pyParseInt_pyIntStr (i : Int) : pyParseInt (pyIntStr i) = some i := by
  by_cases hneg : i < 0
  · rw [pyIntStr, if_pos hneg, pyParseInt]
    rw [if_pos rfl, if_neg (natDigits_ne_nil _), parseDigitsAux_natDigits]
    simp [abs_of_neg hneg]
  · rw [pyIntStr, if_neg hneg]
    obtain ⟨c, cs, hcs⟩ := List.exists_cons_of_ne_nil (natDigits_ne_nil i.toNat)
    have hdig : (digitVal c).isSome := by
      apply mem_natDigits_isSome_digitVal (n := i.toNat)
      rw [hcs]; exact List.mem_cons_self _ _
    obtain ⟨h1, h2, _⟩ := isSome_digitVal_ne hdig
    rw [hcs, pyParseInt, if_neg h1, if_neg h2, ← hcs, parseDigitsAux_natDigits]
    simp [Int.toNat_of_nonneg (not_lt.mp hneg)]

theorem pyIntStr_not_comma {i : Int} {c : Char} (hc : c ∈ pyIntStr i) : c ≠ ',' := by
  rw [pyIntStr] at hc
  split at hc
  · rcases List.mem_cons.mp hc with rfl | hc
    · decide
    · exact (isSome_digitVal_ne (mem_natDigits_isSome_digitVal hc)).2.2
  · exact (isSome_digitVal_ne (mem_natDigits_isSome_digitVal hc)).2.2

/-! ### Round trip lemmas for comma joined mark lists -/

theorem splitComma_no_comma {x : List Char} (h : ',' ∉ x) : splitComma x = [x] := by
  induction x with
  | nil => rfl
  | cons c cs ih =>
    have hc : c ≠ ',' := fun hc => h (hc ▸ List.mem_cons_self _ _)
    have hcs : ',' ∉ cs := fun hm => h (List.mem_cons_of_mem _ hm)
    rw [splitComma, if_neg hc, ih hcs]

theorem splitComma_append_comma {x : List Char} (r : List Char) (h : ',' ∉ x) :
    splitComma (x ++ ',' :: r) = x :: splitComma r := by
  induction x with
  | nil => rw [List.nil_append, splitComma, if_pos rfl]
  | cons c cs ih =>
    have hc : c ≠ ',' := fun hc => h (hc ▸ List.mem_cons_self _ _)
    have hcs : ',' ∉ cs := fun hm => h (List.mem_cons_of_mem _ hm)
    rw [List.cons_append, splitComma, if_neg hc, ih hcs]

theorem joinComma_cons_cons (x y : List Char) (zs : List (List Char)) :
    joinComma (x :: y :: zs) = x ++ ',' :: joinComma (y :: zs) := rfl

theorem splitComma_joinComma :
    ∀ xs : List (List Char), xs ≠ [] → (∀ x ∈ xs, ',' ∉ x) →
      splitComma (joinComma xs) = xs := by
  intro xs
  induction xs with
  | nil => intro h; exact absurd rfl h
  | cons x ys ih =>
    intro _ hmem
    cases ys with
    | nil => exact splitComma_no_comma (hmem x (List.mem_cons_self _ _))
    | cons y zs =>
      rw [joinComma_cons_cons, splitComma_append_comma _ (hmem x (List.mem_cons_self _ _))]
      rw [ih (List.cons_ne_nil y zs) (fun z hz => hmem z (List.mem_cons_of_mem _ hz))]

theorem optionInts_map_some (l : List Int) : optionInts (l.map some) = some l := by
  induction l with
  | nil => rfl
  | cons v vs ih =>
    show (match some v, optionInts (vs.map some) with
          | some a, some bs => some (a :: bs)
          | _, _ => none) = some (v :: vs)
    rw [ih]

theorem parseMarksField_serializeMarks {l : List Int} (h : l ≠ []) :
    parseMarksField (serializeMarks l) = some l := by
  have hdata : (serializeMarks l).data = joinComma (l.map pyIntStr) := rfl
  rw [parseMarksField, hdata]
  rw [splitComma_joinComma (l.map pyIntStr) (by simpa using h)
    (fun x hx hc => by
      obtain ⟨i, _, rfl⟩ := List.mem_map.mp hx
      exact pyIntStr_not_comma hc rfl)]
  rw [List.map_map]
  have : (pyParseInt ∘ pyIntStr) = fun i => some i := by
    funext i
    exact pyParseInt_pyIntStr i
  rw [this]
  exact optionInts_map_some l

theorem parseMarksField_empty : parseMarksField (serializeMarks []) = none := rfl

/-! ### Store lemmas -/

theorem mem_storeIds_storeSetField (st : Store) (sid k : String) (v : Val) (x : String) :
    x ∈ storeIds (storeSetField st sid k v) ↔ x ∈ storeIds st ∨ x = sid := by
  induction st with
  | nil => simp [storeSetField, storeIds]
  | cons p t ih =>
    obtain ⟨s0, r0⟩ := p
    by_cases h : s0 = sid
    · subst h
      simp [storeSetField, storeIds]
      tauto
    · simp only [storeSetField, if_neg h, storeIds, List.map_cons, List.mem_cons] at ih ⊢
      tauto

theorem storeSetField_absent {st : Store} {sid : String} (h : sid ∉ storeIds st)
    (k : String) (v : Val) :
    storeSetField st sid k v = st ++ [(sid, [(k, v)])] := by
  induction st with
  | nil => rfl
  | cons p t ih =>
    obtain ⟨s0, r0⟩ := p
    simp only [storeIds, List.map_cons, List.mem_cons, not_or] at h
    rw [storeSetField, if_neg (fun he => h.1 he.symm), ih h.2, List.cons_append]

theorem storeSetField_middle {pre : Store} {sid : String} (h : sid ∉ storeIds pre)
    (r : Rec) (post : Store) (k : String) (v : Val) :
    storeSetField (pre ++ (sid, r) :: post) sid k v = pre ++ (sid, recSet r k v) :: post := by
  induction pre with
  | nil => simp [storeSetField]
  | cons p t ih =>
    obtain ⟨s0, r0⟩ := p
    simp only [storeIds, List.map_cons, List.mem_cons, not_or] at h
    rw [List.cons_append, storeSetField, if_neg (fun he => h.1 he.symm), ih h.2,
      List.cons_append]

/-! ### Claim C1 -/

/-- Claim C1, evidence against the claim: with subject marks 0 then 10 the
per assignment loop of track_progress_over_time prints the first
assignment line and then raises ZeroDivisionError, because the previous
mark 0 is not None and is used as a divisor; the run does not complete. -/
theorem C1_zero_previous_mark_raises :
    progressLinesP none 1 [0, 10] = ([PLine.assignN 1 0], true) ∧
    (track_progress_over_time [("S1", [("Name", Val.str ("Ann")), ("Class", Val.str ("10A")),
      ("Math", Val.ints [0, 10])])]).2 = true := by
  exact ⟨by decide, by decide⟩

/-! ### Claim C8 -/

/-- Claim C8, evidence against the claim: a missing weights file is indeed
recoverable, but a present weights file with a single well formed row
aborts the load with an AttributeError, because the subject_weights
attribute is never initialized anywhere in the class; the row is never
recorded in any weight table. -/
theorem C8_weights_attribute_error :
    load_subject_weights none (some [⟨"Math", "1.5"⟩]) = (some LoadErr.attrErr, none) ∧
    load_subject_weights none none = (none, none) := by
  exact ⟨by decide, rfl⟩

/-! ### Claim C9 -/

/-- Claim C9: a student whose recorded marks sum to zero while at least one
mark is present is excluded from the progress report and reported with the
no valid marks data line, exactly as a student with no marks recorded at
all would be. -/
theorem C9_zero_total_excluded (sid : String) (r : Rec) (n c : String)
    (h1 : flattenMarks r ≠ []) (h2 : totalMarks r = 0) :
    trackStudent sid r = ([PLine.noDataLine sid], false) ∧
    trackStudent sid [("Name", Val.str n), ("Class", Val.str c)] =
      ([PLine.noDataLine sid], false) := by
  constructor
  · have hx : ¬ 0 < totalMarks r := by omega
    simp [trackStudent, hx]
  · simp [trackStudent, totalMarks, flattenMarks]

/-- Claim C9 witness: a student with the single mark 0 produces the same
no valid marks data line as a student with no marks at all. -/
theorem C9_zero_total_excluded_witness :
    trackStudent ("S1") [("Math", Val.ints [0])] = ([PLine.noDataLine ("S1")], false) ∧
    trackStudent ("S1") [("Name", Val.str ("Ann")), ("Class", Val.str ("10A"))] =
      ([PLine.noDataLine ("S1")], false) :=
  C9_zero_total_excluded ("S1") [("Math", Val.ints [0])] "Ann" "10A" (by decide) (by decide)

/-! ### Claim C5 -/

/-- Claim C5: for a student present in the store, calculate_average returns
the arithmetic mean of the concatenation of all of the student's mark lists
when at least one mark exists, and the None sentinel, never the number
zero, when no marks exist. -/
theorem C5_simple_average (st : Store) (sid : String) (r : Rec)
    (h : st.lookup sid = some r) :
    (flattenMarks r ≠ [] →
      calculate_average st sid =
        some (((flattenMarks r).sum : Rat) / ((flattenMarks r).length : Rat))) ∧
    (flattenMarks r = [] → calculate_average st sid = none) := by
  constructor
  · intro h2
    simp [calculate_average, h, h2]
  · intro h2
    simp [calculate_average, h, h2]

/-- Claim C5 witness: a student with marks 10 and 20 in one subject and a
string Name field averages to their mean. -/
theorem C5_simple_average_witness :
    calculate_average [("S1", [("Name", Val.str ("Ann")), ("Math", Val.ints [10, 20])])] "S1" =
      some (((flattenMarks [("Name", Val.str ("Ann")), ("Math", Val.ints [10, 20])]).sum : Rat) /
        ((flattenMarks [("Name", Val.str ("Ann")), ("Math", Val.ints [10, 20])]).length : Rat)) :=
  (C5_simple_average _ ("S1") _ (by decide)).1 (by decide)

/-! ### Claim C6 -/

theorem loadMarksRows_append_ok : ∀ (xs : List MarksRow) (st st1 : Store),
    loadMarksRows st xs = (none, st1) →
    ∀ ys, loadMarksRows st (xs ++ ys) = loadMarksRows st1 ys := by
  intro xs
  induction xs with
  | nil =>
    intro st st1 h ys
    simp only [loadMarksRows, Prod.mk.injEq, true_and] at h
    subst h
    rw [List.nil_append]
  | cons row t ih =>
    intro st st1 h ys
    cases hb : (loadMarksRow st row).1 with
    | some e => simp [loadMarksRows, hb] at h
    | none =>
      rw [List.cons_append]
      simp only [loadMarksRows, hb] at h ⊢
      exact ih _ _ h ys

/-- Claim C6 counterexample: neither fatal load error leaves the store
empty.  A marks file whose header lacks the English column halts with a
SchemaError while the store still holds the loaded identity record; a marks
file whose second row has the bad Science token x halts with a mark format
error while the store still holds the first row's marks and even the Math
list of the failing row. -/
theorem C6_counterexample_store_not_empty :
    ((load_data ⟨["StudentID", "Name", "Class"], [⟨"S1", "Ann", "10A"⟩]⟩
        ⟨["StudentID", "Math", "Science"], []⟩ none).1 =
      some (LoadErr.schemaErr ("English") ("marks.csv")) ∧
    (load_data ⟨["StudentID", "Name", "Class"], [⟨"S1", "Ann", "10A"⟩]⟩
        ⟨["StudentID", "Math", "Science"], []⟩ none).2.1 =
      [("S1", [("Name", Val.str ("Ann")), ("Class", Val.str ("10A"))])]) ∧
    ((load_data ⟨["StudentID", "Name", "Class"], [⟨"S1", "Ann", "10A"⟩]⟩
        ⟨["StudentID", "Math", "Science", "English"],
          [⟨"S1", "1", "2", "3"⟩, ⟨"S2", "4", "x", "6"⟩]⟩ none).1 =
      some (LoadErr.markFormatErr ("S2")) ∧
    (load_data ⟨["StudentID", "Name", "Class"], [⟨"S1", "Ann", "10A"⟩]⟩
        ⟨["StudentID", "Math", "Science", "English"],
          [⟨"S1", "1", "2", "3"⟩, ⟨"S2", "4", "x", "6"⟩]⟩ none).2.1 =
      [("S1", [("Name", Val.str ("Ann")), ("Class", Val.str ("10A")),
        ("Math", Val.ints [1]), ("Science", Val.ints [2]),
        ("English", Val.ints [3])]),
       ("S2", [("Math", Val.ints [4])])]) := by
  exact ⟨⟨by decide, by decide⟩, by decide, by decide⟩

/-- Claim C6 amended: fatal load errors abort by terminating the process,
not by rolling the store back to empty.  On a marks schema error the store
is left exactly as the identity load left it; on a mark format error the
store keeps the marks of every row loaded before the failing row, and when
a later field of the failing row holds the bad token, also the fields of
the failing row assigned before it (its Math list when Science fails). -/
theorem C6_amended_abort_keeps_prior_data (idf : IdentityFile) (mkf : MarksFile)
    (w : Option (List WeightsRow)) (c : String) (st st1 : Store)
    (good : List MarksRow) (bad : MarksRow) (rest : List MarksRow) (mm : List Int) :
    (missingColumn ["StudentID", "Name", "Class"] idf.header = none →
      missingColumn ["StudentID", "Math", "Science", "English"] mkf.header = some c →
      load_data idf mkf w =
        (some (LoadErr.schemaErr c ("marks.csv")), loadStudentRows [] idf.rows, none)) ∧
    (loadMarksRows st good = (none, st1) →
      parseMarksField bad.math = none →
      loadMarksRows st (good ++ bad :: rest) =
        (some (LoadErr.markFormatErr bad.studentId), st1)) ∧
    (loadMarksRows st good = (none, st1) →
      parseMarksField bad.math = some mm →
      parseMarksField bad.science = none →
      loadMarksRows st (good ++ bad :: rest) =
        (some (LoadErr.markFormatErr bad.studentId),
          storeSetField st1 bad.studentId ("Math") (Val.ints mm))) := by
  refine ⟨?_, ?_, ?_⟩
  · intro h1 h2
    simp [load_data, load_student_data, load_marks_data, h1, h2]
  · intro h hm
    rw [loadMarksRows_append_ok good st st1 h (bad :: rest)]
    simp [loadMarksRows, loadMarksRow, hm]
  · intro h hm hs
    rw [loadMarksRows_append_ok good st st1 h (bad :: rest)]
    simp [loadMarksRows, loadMarksRow, hm, hs]

/-- Claim C6 amended witness: the schema error case at the counterexample
identity file, and the two mark format cases over one well formed row
followed by a failing row, first with a bad Math token, then with a good
Math list of 4 and a bad Science token. -/
theorem C6_amended_witness :
    load_data ⟨["StudentID", "Name", "Class"], [⟨"S1", "Ann", "10A"⟩]⟩
        ⟨["StudentID", "Math", "Science"], []⟩ none =
      (some (LoadErr.schemaErr ("English") ("marks.csv")),
        loadStudentRows [] [⟨"S1", "Ann", "10A"⟩], none) ∧
    loadMarksRows [] ([⟨"S1", "1", "2", "3"⟩] ++ (⟨"S2", "x", "5", "6"⟩ : MarksRow) :: []) =
      (some (LoadErr.markFormatErr ("S2")),
        [("S1", [("Math", Val.ints [1]), ("Science", Val.ints [2]),
          ("English", Val.ints [3])])]) ∧
    loadMarksRows [] ([⟨"S1", "1", "2", "3"⟩] ++ (⟨"S2", "4", "x", "6"⟩ : MarksRow) :: []) =
      (some (LoadErr.markFormatErr ("S2")),
        storeSetField [("S1", [("Math", Val.ints [1]), ("Science", Val.ints [2]),
          ("English", Val.ints [3])])] ("S2") ("Math") (Val.ints [4])) :=
  ⟨(C6_amended_abort_keeps_prior_data
      ⟨["StudentID", "Name", "Class"], [⟨"S1", "Ann", "10A"⟩]⟩
      ⟨["StudentID", "Math", "Science"], []⟩ none ("English") [] []
      [] ⟨"S2", "x", "5", "6"⟩ [] []).1 (by decide) (by decide),
   (C6_amended_abort_keeps_prior_data
      ⟨["StudentID", "Name", "Class"], [⟨"S1", "Ann", "10A"⟩]⟩
      ⟨["StudentID", "Math", "Science"], []⟩ none ("English") []
      [("S1", [("Math", Val.ints [1]), ("Science", Val.ints [2]),
        ("English", Val.ints [3])])]
      [⟨"S1", "1", "2", "3"⟩] ⟨"S2", "x", "5", "6"⟩ [] []).2.1 (by decide) (by decide),
   (C6_amended_abort_keeps_prior_data
      ⟨["StudentID", "Name", "Class"], [⟨"S1", "Ann", "10A"⟩]⟩
      ⟨["StudentID", "Math", "Science"], []⟩ none ("English") []
      [("S1", [("Math", Val.ints [1]), ("Science", Val.ints [2]),
        ("English", Val.ints [3])])]
      [⟨"S1", "1", "2", "3"⟩] ⟨"S2", "4", "x", "6"⟩ [] [4]).2.2
        (by decide) (by decide) (by decide)⟩

/-! ### Claim C10 -/

theorem gradeA_iff (s : Rat) : calculate_grade s = "A" ↔ 90 ≤ s := by
  unfold calculate_grade
  split_ifs with h1 h2 h3 h4 <;> constructor <;> intro h
  · exact h1
  · rfl
  · exact absurd h (by decide)
  · exfalso; linarith [h2.2]
  · exact absurd h (by decide)
  · exfalso; linarith [h3.2]
  · exact absurd h (by decide)
  · exfalso; linarith [h4.2]
  · exact absurd h (by decide)
  · exact absurd h h1

theorem gradeB_iff (s : Rat) : calculate_grade s = "B" ↔ 80 ≤ s ∧ s < 90 := by
  unfold calculate_grade
  split_ifs with h1 h2 h3 h4 <;> constructor <;> intro h
  · exact absurd h (by decide)
  · exfalso; linarith [h.2]
  · exact h2
  · rfl
  · exact absurd h (by decide)
  · exfalso; linarith [h.1, h3.2]
  · exact absurd h (by decide)
  · exfalso; linarith [h.1, h4.2]
  · exact absurd h (by decide)
  · exact absurd h h2

theorem gradeC_iff (s : Rat) : calculate_grade s = "C" ↔ 70 ≤ s ∧ s < 80 := by
  unfold calculate_grade
  split_ifs with h1 h2 h3 h4 <;> constructor <;> intro h
  · exact absurd h (by decide)
  · exfalso; linarith [h.2]
  · exact absurd h (by decide)
  · exfalso; linarith [h.2, h2.1]
  · exact h3
  · rfl
  · exact absurd h (by decide)
  · exfalso; linarith [h.1, h4.2]
  · exact absurd h (by decide)
  · exact absurd h h3

theorem gradeD_iff (s : Rat) : calculate_grade s = "D" ↔ 60 ≤ s ∧ s < 70 := by
  unfold calculate_grade
  split_ifs with h1 h2 h3 h4 <;> constructor <;> intro h
  · exact absurd h (by decide)
  · exfalso; linarith [h.2]
  · exact absurd h (by decide)
  · exfalso; linarith [h.2, h2.1]
  · exact absurd h (by decide)
  · exfalso; linarith [h.2, h3.1]
  · exact h4
  · rfl
  · exact absurd h (by decide)
  · exact absurd h h4

theorem score_cascade {s : Rat} (h1 : ¬ 90 ≤ s) (h2 : ¬(80 ≤ s ∧ s < 90))
    (h3 : ¬(70 ≤ s ∧ s < 80)) (h4 : ¬(60 ≤ s ∧ s < 70)) : s < 60 := by
  by_contra hc
  push_neg at hc h1 h2 h3 h4
  have h70 := h4 hc
  have h80 := h3 h70
  have h90 := h2 h80
  linarith

theorem gradeF_iff (s : Rat) : calculate_grade s = "F" ↔ s < 60 := by
  unfold calculate_grade
  split_ifs with h1 h2 h3 h4 <;> constructor <;> intro h
  · exact absurd h (by decide)
  · exfalso; linarith
  · exact absurd h (by decide)
  · exfalso; linarith [h2.1]
  · exact absurd h (by decide)
  · exfalso; linarith [h3.1]
  · exact absurd h (by decide)
  · exfalso; linarith [h4.1]
  · exact score_cascade h1 h2 h3 h4
  · rfl

/-- Claim C10: calculate_grade is total, returning exactly one of the five
letters, with each letter returned precisely on its score interval and F on
every other score, including all scores below 60 and all negative scores. -/
theorem C10_calculate_grade_intervals (s : Rat) :
    calculate_grade s ∈ ["A", "B", "C", "D", "F"] ∧
    (calculate_grade s = "A" ↔ 90 ≤ s) ∧
    (calculate_grade s = "B" ↔ 80 ≤ s ∧ s < 90) ∧
    (calculate_grade s = "C" ↔ 70 ≤ s ∧ s < 80) ∧
    (calculate_grade s = "D" ↔ 60 ≤ s ∧ s < 70) ∧
    (calculate_grade s = "F" ↔ s < 60) := by
  refine ⟨?_, gradeA_iff s, gradeB_iff s, gradeC_iff s, gradeD_iff s, gradeF_iff s⟩
  unfold calculate_grade
  split_ifs <;> simp

/-- Claim C10 witness: a score of 95 gets grade A and a score of -5 gets
grade F. -/
theorem C10_calculate_grade_intervals_witness :
    calculate_grade 95 = "A" ∧ calculate_grade (-5) = "F" :=
  ⟨(C10_calculate_grade_intervals 95).2.1.mpr (by norm_num),
   (C10_calculate_grade_intervals (-5)).2.2.2.2.2.mpr (by norm_num)⟩

/-! ### Claim C2 -/

/-- Claim C2 counterexample: for a student with a Name, a Class and one
subject with a single mark of 50, the printed progress percentage is not
the claimed total over 100 times the number of subjects: the code divides
by 100 times the number of record fields, which also counts the Name and
Class fields. -/
theorem C2_counterexample_denominator :
    progressPcts (trackStudent ("S1") [("Name", Val.str ("Ann")), ("Class", Val.str ("10A")),
        ("Math", Val.ints [50])]).1 ≠
      [((totalMarks [("Name", Val.str ("Ann")), ("Class", Val.str ("10A")),
          ("Math", Val.ints [50])] : Rat) /
        (100 * (subjectCount [("Name", Val.str ("Ann")), ("Class", Val.str ("10A")),
          ("Math", Val.ints [50])] : Rat))) * 100] := by
  intro h
  simp [progressPcts, trackStudent, totalMarks, flattenMarks, subjectLoop,
    progressLinesP, subjectCount] at h
  norm_num at h

/-- Claim C2 amended: for a student with positive total marks and a Name
field, the progress block prints the percentage with denominator 100 times
the number of fields of the student's record, counting the Name and Class
fields along with the subjects. -/
theorem C2_amended_progress_denominator (sid : String) (r : Rec) (nv : Val)
    (h1 : 0 < totalMarks r) (h2 : r.lookup ("Name") = some nv) :
    ∃ rest, (trackStudent sid r).1 =
      PLine.idLine sid :: PLine.nameLine nv :: PLine.totalLine (totalMarks r) ::
        PLine.progressLine (((totalMarks r : Rat) / (100 * (r.length : Rat))) * 100) ::
        rest := by
  refine ⟨(subjectLoop (r.filter (fun kv => !(kv.1 == "Name" || kv.1 == "Class")))).1, ?_⟩
  simp [trackStudent, h1, h2]

/-- Claim C2 amended witness: a record with a Name field and one subject
holding a single mark of 50 prints progress 50 over 100 times 2. -/
theorem C2_amended_witness :
    ∃ rest, (trackStudent ("S1") [("Name", Val.str ("Ann")), ("Math", Val.ints [50])]).1 =
      PLine.idLine ("S1") :: PLine.nameLine (Val.str ("Ann")) ::
        PLine.totalLine (totalMarks [("Name", Val.str ("Ann")), ("Math", Val.ints [50])]) ::
        PLine.progressLine
          (((totalMarks [("Name", Val.str ("Ann")), ("Math", Val.ints [50])] : Rat) /
            (100 * ((([("Name", Val.str ("Ann")), ("Math", Val.ints [50])] : Rec)).length : Rat)))
            * 100) :: rest :=
  C2_amended_progress_denominator ("S1") _ _ (by decide) (by decide)

/-! ### Claim C3 -/

/-- Claim C3 counterexample: with an empty identity source and one marks
row for the unknown id S9, the load completes with no error and the store
contains an entry for S9, so a marks row for an unknown identifier is not a
load time error and silently creates an entry. -/
theorem C3_counterexample_unknown_id_auto_created :
    (load_data ⟨["StudentID", "Name", "Class"], []⟩
        ⟨["StudentID", "Math", "Science", "English"], [⟨"S9", "1", "2", "3"⟩]⟩ none).1 =
      none ∧
    "S9" ∈ storeIds (load_data ⟨["StudentID", "Name", "Class"], []⟩
        ⟨["StudentID", "Math", "Science", "English"], [⟨"S9", "1", "2", "3"⟩]⟩ none).2.1 := by
  exact ⟨by decide, by decide⟩

theorem loadMarksRow_success_ids (st : Store) (row : MarksRow)
    (h : (loadMarksRow st row).1 = none) (x : String) :
    x ∈ storeIds (loadMarksRow st row).2 ↔ x ∈ storeIds st ∨ x = row.studentId := by
  cases hm : parseMarksField row.math with
  | none => simp [loadMarksRow, hm] at h
  | some mm =>
    cases hs : parseMarksField row.science with
    | none => simp [loadMarksRow, hm, hs] at h
    | some sm =>
      cases he : parseMarksField row.english with
      | none => simp [loadMarksRow, hm, hs, he] at h
      | some em =>
        simp only [loadMarksRow, hm, hs, he, mem_storeIds_storeSetField]
        tauto

theorem loadMarksRows_mem : ∀ (rows : List MarksRow) (st : Store),
    (loadMarksRows st rows).1 = none → ∀ x,
      (x ∈ storeIds (loadMarksRows st rows).2 ↔
        x ∈ storeIds st ∨ x ∈ rows.map MarksRow.studentId) := by
  intro rows
  induction rows with
  | nil => intro st h x; simp [loadMarksRows]
  | cons row rest ih =>
    intro st h x
    cases hb : (loadMarksRow st row).1 with
    | some e => simp [loadMarksRows, hb] at h
    | none =>
      simp only [loadMarksRows, hb] at h ⊢
      rw [ih _ h x, loadMarksRow_success_ids st row hb x]
      simp only [List.map_cons, List.mem_cons]
      tauto

/-- Claim C3 amended: a marks row for an identifier absent from the
identity data is not an error; it silently creates a store entry, so after
a successful marks load an identifier is in the store precisely when it was
there before or appears in some marks row. -/
theorem C3_amended_store_ids (st : Store) (f : MarksFile)
    (h : (load_marks_data st f).1 = none) (x : String) :
    x ∈ storeIds (load_marks_data st f).2 ↔
      x ∈ storeIds st ∨ x ∈ f.rows.map MarksRow.studentId := by
  unfold load_marks_data at h ⊢
  cases hm : missingColumn ["StudentID", "Math", "Science", "English"] f.header with
  | some c => rw [hm] at h; simp at h
  | none =>
    rw [hm] at h
    exact loadMarksRows_mem f.rows st h x

/-- Claim C3 amended witness: the unknown id S9 is in the store exactly
because it appears in a marks row. -/
theorem C3_amended_witness :
    "S9" ∈ storeIds (load_marks_data []
        ⟨["StudentID", "Math", "Science", "English"], [⟨"S9", "1", "2", "3"⟩]⟩).2 ↔
      "S9" ∈ storeIds ([] : Store) ∨
        "S9" ∈ ([⟨"S9", "1", "2", "3"⟩] : List MarksRow).map MarksRow.studentId :=
  C3_amended_store_ids [] _ (by decide) "S9"

/-! ### Claim C4 -/

/-- Claim C4 counterexample: a store holding student A with average 10
before student B with average 90 is reported in that order, so the printed
averages 10 then 90 are not in non increasing order and the report is not
ranked. -/
theorem C4_counterexample_not_ranked :
    reportAverages [("A", [("Name", Val.str ("Ann")), ("Class", Val.str ("X")),
        ("Math", Val.ints [10])]),
      ("B", [("Name", Val.str ("Bob")), ("Class", Val.str ("X")),
        ("Math", Val.ints [90])])] = [10, 90] ∧
    ¬ List.Chain' (fun a b : Rat => b ≤ a)
      (reportAverages [("A", [("Name", Val.str ("Ann")), ("Class", Val.str ("X")),
          ("Math", Val.ints [10])]),
        ("B", [("Name", Val.str ("Bob")), ("Class", Val.str ("X")),
          ("Math", Val.ints [90])])]) := by
  have h1 : calculate_average [("A", [("Name", Val.str ("Ann")), ("Class", Val.str ("X")),
        ("Math", Val.ints [10])]),
      ("B", [("Name", Val.str ("Bob")), ("Class", Val.str ("X")),
        ("Math", Val.ints [90])])] "A" = some 10 := by
    simp [calculate_average, flattenMarks, List.lookup]
  have h2 : calculate_average [("A", [("Name", Val.str ("Ann")), ("Class", Val.str ("X")),
        ("Math", Val.ints [10])]),
      ("B", [("Name", Val.str ("Bob")), ("Class", Val.str ("X")),
        ("Math", Val.ints [90])])] "B" = some 90 := by
    simp [calculate_average, flattenMarks, List.lookup]
  have h : reportAverages [("A", [("Name", Val.str ("Ann")), ("Class", Val.str ("X")),
        ("Math", Val.ints [10])]),
      ("B", [("Name", Val.str ("Bob")), ("Class", Val.str ("X")),
        ("Math", Val.ints [90])])] = [10, 90] := by
    simp [reportAverages, generate_report, reportLoop, reportStudent, h1, h2,
      List.lookup]
  refine ⟨h, ?_⟩
  rw [h]
  simp only [List.chain'_cons, List.chain'_singleton, and_true]
  norm_num

theorem rlineIds_reportStudent (st : Store) (sid : String) (r : Rec) :
    rlineIds (reportStudent st sid r).1 = [sid] := by
  unfold reportStudent
  cases calculate_average st sid with
  | none => simp [rlineIds]
  | some avg =>
    cases hn : r.lookup ("Name") with
    | none => simp [rlineIds]
    | some nv =>
      cases hc : r.lookup ("Class") with
      | none => simp [rlineIds]
      | some cv => simp [rlineIds, List.filterMap_append, List.filterMap_map, Function.comp]

theorem reportLoop_ids (st : Store) : ∀ rows : List (String × Rec),
    (reportLoop st rows).2 = false →
      rlineIds (reportLoop st rows).1 = rows.map Prod.fst := by
  intro rows
  induction rows with
  | nil => intro h; simp [reportLoop, rlineIds]
  | cons p rest ih =>
    intro h
    obtain ⟨sid, r⟩ := p
    cases hb : (reportStudent st sid r).2 with
    | true => simp [reportLoop, hb] at h
    | false =>
      simp only [reportLoop, hb, Bool.false_eq_true, if_false] at h ⊢
      rw [show rlineIds ((reportStudent st sid r).1 ++ (reportLoop st rest).1) =
            rlineIds (reportStudent st sid r).1 ++ rlineIds (reportLoop st rest).1 from
          List.filterMap_append _ _ _]
      rw [rlineIds_reportStudent, ih h, List.map_cons]
      rfl

/-- Claim C4 amended: generate_report performs no sorting at all; when no
block raises, it emits exactly one block per student in store insertion
order, with students without marks announced by an invalid data line in
place rather than being moved to the end. -/
theorem C4_amended_report_in_store_order (st : Store)
    (h : (generate_report st).2 = false) :
    reportStudentIds st = storeIds st := by
  unfold generate_report at h
  unfold reportStudentIds generate_report storeIds
  exact reportLoop_ids st st h

/-- Claim C4 amended witness: the two student store is reported as A then
B, its insertion order. -/
theorem C4_amended_witness :
    reportStudentIds [("A", [("Name", Val.str ("Ann")), ("Class", Val.str ("X")),
        ("Math", Val.ints [10])]),
      ("B", [("Name", Val.str ("Bob")), ("Class", Val.str ("X")),
        ("Math", Val.ints [90])])] =
      storeIds [("A", [("Name", Val.str ("Ann")), ("Class", Val.str ("X")),
          ("Math", Val.ints [10])]),
        ("B", [("Name", Val.str ("Bob")), ("Class", Val.str ("X")),
          ("Math", Val.ints [90])])] :=
  C4_amended_report_in_store_order _ (by decide)

/-! ### Claim C7: export and reload -/

theorem goodRec_fields {r : Rec} (h : goodRec r = true) :
    (∃ n, r.lookup ("Name") = some (Val.str n)) ∧
    (∃ c, r.lookup ("Class") = some (Val.str c)) ∧
    (∃ ml, r.lookup ("Math") = some (Val.ints ml) ∧ ml ≠ []) ∧
    (∃ sl, r.lookup ("Science") = some (Val.ints sl) ∧ sl ≠ []) ∧
    (∃ el, r.lookup ("English") = some (Val.ints el) ∧ el ≠ []) := by
  unfold goodRec at h
  simp only [Bool.and_eq_true] at h
  obtain ⟨⟨⟨⟨h1, h2⟩, h3⟩, h4⟩, h5⟩ := h
  refine ⟨?_, ?_, ?_, ?_, ?_⟩
  · cases hn : r.lookup ("Name") with
    | none => rw [hn] at h1; simp at h1
    | some v =>
      cases v with
      | str n => exact ⟨n, rfl⟩
      | ints l => rw [hn] at h1; simp at h1
  · cases hc : r.lookup ("Class") with
    | none => rw [hc] at h2; simp at h2
    | some v =>
      cases v with
      | str c => exact ⟨c, rfl⟩
      | ints l => rw [hc] at h2; simp at h2
  · cases hm : r.lookup ("Math") with
    | none => rw [hm] at h3; simp at h3
    | some v =>
      cases v with
      | str s => rw [hm] at h3; simp at h3
      | ints l =>
        rw [hm] at h3
        refine ⟨l, rfl, ?_⟩
        simp at h3
        simpa using h3
  · cases hs : r.lookup ("Science") with
    | none => rw [hs] at h4; simp at h4
    | some v =>
      cases v with
      | str s => rw [hs] at h4; simp at h4
      | ints l =>
        rw [hs] at h4
        refine ⟨l, rfl, ?_⟩
        simp at h4
        simpa using h4
  · cases he : r.lookup ("English") with
    | none => rw [he] at h5; simp at h5
    | some v =>
      cases v with
      | str s => rw [he] at h5; simp at h5
      | ints l =>
        rw [he] at h5
        refine ⟨l, rfl, ?_⟩
        simp at h5
        simpa using h5

theorem exportStudent_good {r : Rec} (sid : String) (h : goodRec r = true) :
    exportStudent sid r = some (exportRowOf (sid, r)) := by
  obtain ⟨⟨n, hn⟩, ⟨c, hc⟩, ⟨ml, hm, _⟩, ⟨sl, hs, _⟩, ⟨el, he, _⟩⟩ := goodRec_fields h
  simp [exportStudent, exportRowOf, fieldOr, hn, hc, hm, hs, he]

theorem mapM_exportStudent : ∀ st : Store, (∀ p ∈ st, goodRec p.2 = true) →
    st.mapM (fun kv => exportStudent kv.1 kv.2) = some (st.map exportRowOf) := by
  intro st
  induction st with
  | nil => intro _; rfl
  | cons p t ih =>
    intro hg
    obtain ⟨sid, r⟩ := p
    rw [List.mapM_cons, exportStudent_good sid (hg (sid, r) (List.mem_cons_self _ _)),
      ih (fun q hq => hg q (List.mem_cons_of_mem _ hq))]
    rfl

theorem export_good (st : Store) (hg : ∀ p ∈ st, goodRec p.2 = true) :
    export_students_to_csv st =
      some ⟨["StudentID", "Name", "Class", "Math", "Science", "English"],
        st.map exportRowOf⟩ := by
  unfold export_students_to_csv
  rw [mapM_exportStudent st hg]
  rfl

theorem loadStudentRows_disjoint : ∀ (rows : List IdentityRow) (pre : Store),
    (rows.map IdentityRow.studentId).Nodup →
    (∀ i ∈ rows, i.studentId ∉ storeIds pre) →
    loadStudentRows pre rows =
      pre ++ rows.map (fun i => (i.studentId,
        [("Name", Val.str i.name), ("Class", Val.str i.className)])) := by
  intro rows
  induction rows with
  | nil => intro pre _ _; simp [loadStudentRows]
  | cons i rest ih =>
    intro pre hnd hdis
    rw [loadStudentRows]
    have hpre : i.studentId ∉ storeIds pre := hdis i (List.mem_cons_self _ _)
    have h1 : storeSetField pre i.studentId ("Name") (Val.str i.name) =
        pre ++ [(i.studentId, [("Name", Val.str i.name)])] :=
      storeSetField_absent hpre _ _
    have h2 : storeSetField (pre ++ [(i.studentId, [("Name", Val.str i.name)])])
        i.studentId ("Class") (Val.str i.className) =
        pre ++ [(i.studentId,
          recSet [("Name", Val.str i.name)] "Class" (Val.str i.className))] :=
      storeSetField_middle hpre _ [] _ _
    rw [h1, h2]
    have hrec : recSet [("Name", Val.str i.name)] "Class" (Val.str i.className) =
        [("Name", Val.str i.name), ("Class", Val.str i.className)] := by
      simp [recSet]
    rw [hrec, ih _ ((List.nodup_cons.mp hnd).2) ?_]
    · simp
    · intro j hj
      have hne : j.studentId ≠ i.studentId := by
        intro he
        exact (List.nodup_cons.mp hnd).1 (he ▸ List.mem_map_of_mem IdentityRow.studentId hj)
      simp only [storeIds, List.map_append, List.mem_append]
      rintro (hc | hc)
      · exact hdis j (List.mem_cons_of_mem _ hj) hc
      · simp at hc
        exact hne hc

theorem loadMarksRows_exported : ∀ (st : Store) (pre : Store),
    (storeIds st).Nodup →
    (∀ p ∈ st, p.1 ∉ storeIds pre) →
    (∀ p ∈ st, goodRec p.2 = true) →
    loadMarksRows
      (pre ++ st.map (fun p => (p.1,
        [("Name", fieldOr p.2 ("Name")), ("Class", fieldOr p.2 ("Class"))])))
      (st.map (fun p => (⟨p.1, pyJoinMarks (fieldOr p.2 ("Math")),
        pyJoinMarks (fieldOr p.2 ("Science")),
        pyJoinMarks (fieldOr p.2 ("English"))⟩ : MarksRow))) =
      (none, pre ++ st.map (fun p => (p.1, canonRec p.2))) := by
  intro st
  induction st with
  | nil => intro pre _ _ _; simp [loadMarksRows]
  | cons p t ih =>
    intro pre hnd hdis hg
    obtain ⟨sid, r⟩ := p
    obtain ⟨⟨n, hn⟩, ⟨c, hc⟩, ⟨ml, hm, hm0⟩, ⟨sl, hs, hs0⟩, ⟨el, he, he0⟩⟩ :=
      goodRec_fields (hg (sid, r) (List.mem_cons_self _ _))
    have fm : fieldOr r ("Math") = Val.ints ml := by simp [fieldOr, hm]
    have fs : fieldOr r ("Science") = Val.ints sl := by simp [fieldOr, hs]
    have fe : fieldOr r ("English") = Val.ints el := by simp [fieldOr, he]
    have pm : parseMarksField (pyJoinMarks (fieldOr r ("Math"))) = some ml := by
      rw [fm]
      exact parseMarksField_serializeMarks hm0
    have ps : parseMarksField (pyJoinMarks (fieldOr r ("Science"))) = some sl := by
      rw [fs]
      exact parseMarksField_serializeMarks hs0
    have pe : parseMarksField (pyJoinMarks (fieldOr r ("English"))) = some el := by
      rw [fe]
      exact parseMarksField_serializeMarks he0
    have hpre : sid ∉ storeIds pre := hdis (sid, r) (List.mem_cons_self _ _)
    have hndt : (storeIds t).Nodup := by
      simp only [storeIds, List.map_cons] at hnd
      exact (List.nodup_cons.mp hnd).2
    have hhead : sid ∉ storeIds t := by
      simp only [storeIds, List.map_cons] at hnd
      exact (List.nodup_cons.mp hnd).1
    have e1 : recSet [("Name", fieldOr r ("Name")), ("Class", fieldOr r ("Class"))]
        "Math" (Val.ints ml) =
        [("Name", fieldOr r ("Name")), ("Class", fieldOr r ("Class")),
         ("Math", Val.ints ml)] := by
      simp [recSet]
    have e2 : recSet [("Name", fieldOr r ("Name")), ("Class", fieldOr r ("Class")),
        ("Math", Val.ints ml)] "Science" (Val.ints sl) =
        [("Name", fieldOr r ("Name")), ("Class", fieldOr r ("Class")),
         ("Math", Val.ints ml), ("Science", Val.ints sl)] := by
      simp [recSet]
    have e3 : recSet [("Name", fieldOr r ("Name")), ("Class", fieldOr r ("Class")),
        ("Math", Val.ints ml), ("Science", Val.ints sl)] "English" (Val.ints el) =
        [("Name", fieldOr r ("Name")), ("Class", fieldOr r ("Class")),
         ("Math", Val.ints ml), ("Science", Val.ints sl),
         ("English", Val.ints el)] := by
      simp [recSet]
    have hcanon : [("Name", fieldOr r ("Name")), ("Class", fieldOr r ("Class")),
        ("Math", Val.ints ml), ("Science", Val.ints sl),
        ("English", Val.ints el)] = canonRec r := by
      rw [canonRec, fm, fs, fe]
    have hrow : loadMarksRow
        (pre ++ (sid, [("Name", fieldOr r ("Name")), ("Class", fieldOr r ("Class"))]) ::
          t.map (fun p => (p.1,
            [("Name", fieldOr p.2 ("Name")), ("Class", fieldOr p.2 ("Class"))])))
        ⟨sid, pyJoinMarks (fieldOr r ("Math")), pyJoinMarks (fieldOr r ("Science")),
          pyJoinMarks (fieldOr r ("English"))⟩ =
        (none, pre ++ (sid, canonRec r) ::
          t.map (fun p => (p.1,
            [("Name", fieldOr p.2 ("Name")), ("Class", fieldOr p.2 ("Class"))]))) := by
      simp only [loadMarksRow, pm, ps, pe]
      rw [storeSetField_middle hpre, e1, storeSetField_middle hpre, e2,
        storeSetField_middle hpre, e3, hcanon]
    rw [List.map_cons, List.map_cons, List.map_cons]
    simp only [loadMarksRows, hrow]
    rw [List.append_cons pre (sid, canonRec r)]
    rw [ih (pre ++ [(sid, canonRec r)]) hndt ?_ (fun q hq => hg q (List.mem_cons_of_mem _ hq))]
    · simp
    · intro q hq
      simp only [storeIds, List.map_append, List.mem_append, not_or]
      refine ⟨hdis q (List.mem_cons_of_mem _ hq), ?_⟩
      simp only [List.map_cons, List.map_nil, List.mem_singleton]
      intro he2
      exact hhead (he2 ▸ List.mem_map_of_mem Prod.fst hq)

/-- Claim C7 amended: for a store with distinct ids in which every student
has a string Name and Class and nonempty integer mark lists for Math,
Science and English, the export succeeds, re-parsing the exported file with
the identity and the marks loader succeeds, and the rebuilt store has the
same students in the same order with identical id, Name, Class and
per subject mark sequences; only an empty mark list breaks the round trip. -/
theorem C7_amended_roundtrip (st : Store)
    (hnd : (storeIds st).Nodup) (hg : ∀ p ∈ st, goodRec p.2 = true) :
    ∃ f, export_students_to_csv st = some f ∧
      (reload f).1 = none ∧
      (reload f).2 = st.map (fun p => (p.1, canonRec p.2)) ∧
      ∀ p ∈ st, fieldsOf (canonRec p.2) = fieldsOf p.2 := by
  have hmc1 : missingColumn ["StudentID", "Name", "Class"]
      ["StudentID", "Name", "Class", "Math", "Science", "English"] = none := by decide
  have hmc2 : missingColumn ["StudentID", "Math", "Science", "English"]
      ["StudentID", "Name", "Class", "Math", "Science", "English"] = none := by decide
  have hrows1 : (st.map exportRowOf).map
      (fun r => (⟨r.studentId, r.name, r.className⟩ : IdentityRow)) =
      st.map (fun p => (⟨p.1, pyValStr (fieldOr p.2 ("Name")),
        pyValStr (fieldOr p.2 ("Class"))⟩ : IdentityRow)) := by
    rw [List.map_map]
    rfl
  have hrows2 : (st.map exportRowOf).map
      (fun r => (⟨r.studentId, r.math, r.science, r.english⟩ : MarksRow)) =
      st.map (fun p => (⟨p.1, pyJoinMarks (fieldOr p.2 ("Math")),
        pyJoinMarks (fieldOr p.2 ("Science")),
        pyJoinMarks (fieldOr p.2 ("English"))⟩ : MarksRow)) := by
    rw [List.map_map]
    rfl
  have hidnodup : (st.map (fun p => (⟨p.1, pyValStr (fieldOr p.2 ("Name")),
      pyValStr (fieldOr p.2 ("Class"))⟩ : IdentityRow))).map IdentityRow.studentId =
      storeIds st := by
    rw [List.map_map]
    rfl
  have hload1 : loadStudentRows [] (st.map (fun p => (⟨p.1, pyValStr (fieldOr p.2 ("Name")),
      pyValStr (fieldOr p.2 ("Class"))⟩ : IdentityRow))) =
      st.map (fun p => (p.1, [("Name", fieldOr p.2 ("Name")),
        ("Class", fieldOr p.2 ("Class"))])) := by
    rw [loadStudentRows_disjoint _ [] (by rw [hidnodup]; exact hnd)
      (by intro i _; simp [storeIds])]
    rw [List.nil_append, List.map_map]
    apply List.map_congr_left
    intro p hp
    obtain ⟨⟨n, hn⟩, ⟨c, hc⟩, _, _, _⟩ := goodRec_fields (hg p hp)
    simp [Function.comp, fieldOr, hn, hc, pyValStr]
  have hid : load_student_data []
      (asIdentityFile ⟨["StudentID", "Name", "Class", "Math", "Science", "English"],
        st.map exportRowOf⟩) =
      (none, st.map (fun p => (p.1, [("Name", fieldOr p.2 ("Name")),
        ("Class", fieldOr p.2 ("Class"))]))) := by
    simp only [load_student_data, asIdentityFile, hmc1, hrows1, hload1]
  have hmk : load_marks_data
      (st.map (fun p => (p.1, [("Name", fieldOr p.2 ("Name")),
        ("Class", fieldOr p.2 ("Class"))])))
      (asMarksFile ⟨["StudentID", "Name", "Class", "Math", "Science", "English"],
        st.map exportRowOf⟩) =
      (none, st.map (fun p => (p.1, canonRec p.2))) := by
    simp only [load_marks_data, asMarksFile, hmc2, hrows2]
    have hmain := loadMarksRows_exported st [] hnd (by intro p _; simp [storeIds]) hg
    simpa using hmain
  have hreload : reload ⟨["StudentID", "Name", "Class", "Math", "Science", "English"],
      st.map exportRowOf⟩ = (none, st.map (fun p => (p.1, canonRec p.2))) := by
    simp only [reload, hid, hmk]
  refine ⟨⟨["StudentID", "Name", "Class", "Math", "Science", "English"],
    st.map exportRowOf⟩, export_good st hg, ?_, ?_, ?_⟩
  · rw [hreload]
  · rw [hreload]
  · intro p hp
    obtain ⟨⟨n, hn⟩, ⟨c, hc⟩, ⟨ml, hm, _⟩, ⟨sl, hs, _⟩, ⟨el, he, _⟩⟩ :=
      goodRec_fields (hg p hp)
    simp [fieldsOf, canonRec, List.lookup, fieldOr, hn, hc, hm, hs, he]

/-- Claim C7 amended witness: a one student store with marks 7, 8 and 9
exports and reloads to exactly the same student data. -/
theorem C7_amended_roundtrip_witness :
    ∃ f, export_students_to_csv [("S1", [("Name", Val.str ("Ann")),
        ("Class", Val.str ("10A")), ("Math", Val.ints [7]),
        ("Science", Val.ints [8]), ("English", Val.ints [9])])] = some f ∧
      (reload f).1 = none ∧
      (reload f).2 = [("S1", [("Name", Val.str ("Ann")), ("Class", Val.str ("10A")),
        ("Math", Val.ints [7]), ("Science", Val.ints [8]),
        ("English", Val.ints [9])])].map (fun p => (p.1, canonRec p.2)) ∧
      ∀ p ∈ [("S1", [("Name", Val.str ("Ann")), ("Class", Val.str ("10A")),
        ("Math", Val.ints [7]), ("Science", Val.ints [8]),
        ("English", Val.ints [9])])], fieldsOf (canonRec p.2) = fieldsOf p.2 :=
  C7_amended_roundtrip _ (by decide) (by decide)

/-- Claim C7 counterexample: a student whose Math subject has an empty mark
list exports to an empty Math field, and re-parsing the exported file
aborts with a mark format error instead of reproducing the student, because
the empty string does not parse as an integer list. -/
theorem C7_counterexample_empty_marks :
    export_students_to_csv [("S1", [("Name", Val.str ("Ann")), ("Class", Val.str ("10A")),
        ("Math", Val.ints []), ("Science", Val.ints [1]), ("English", Val.ints [2])])] =
      some ⟨["StudentID", "Name", "Class", "Math", "Science", "English"],
        [⟨"S1", "Ann", "10A", "", "1", "2"⟩]⟩ ∧
    (reload ⟨["StudentID", "Name", "Class", "Math", "Science", "English"],
        [⟨"S1", "Ann", "10A", "", "1", "2"⟩]⟩).1 =
      some (LoadErr.markFormatErr ("S1")) := by
  exact ⟨by decide, by decide⟩
